import Mathlib

/-!
Verification development for the NBA player-report script (`app.py`).

The Python source is shallowly embedded: pure helpers become Lean
functions over `ℚ` and `String`; the network, the HTML parsing done by
external libraries and the stats API are oracles supplied as explicit
environment arguments; Python exceptions that can cross a function
boundary are modelled with `Except`; side effects (the fixed scrape
delay and the HTTP GET) are recorded in an explicit effect trace.
-/

namespace NbaApp

/-- A Python value as it occurs in this program's dictionaries: every
stat field is either a number or a string (the `'N/A'` sentinel and
other labels). -/
inductive PyVal where
  | num (q : ℚ)
  | str (s : String)
deriving DecidableEq, Repr

/-- Value of a list of decimal digit characters. -/
def natOfDigits (cs : List Char) : ℕ :=
  cs.foldl (fun n c => n * 10 + (c.toNat - 48)) 0

/-- `some` of the value when the list is a nonempty run of decimal
digits, `none` otherwise. -/
def digitsToNat (cs : List Char) : Option ℕ :=
  if cs.isEmpty then none
  else if cs.all Char.isDigit then some (natOfDigits cs) else none

/-- Strip leading and trailing whitespace (Python `str.strip`, the
behaviour `int`/`float` apply to their argument). -/
def trimChars (cs : List Char) : List Char :=
  ((cs.dropWhile Char.isWhitespace).reverse.dropWhile Char.isWhitespace).reverse

/-- Model of Python `int(s)` on strings: surrounding whitespace is
stripped, an optional sign is allowed, then decimal digits; any other
shape raises `ValueError`, modelled as `none`. -/
def pyIntOfString (s : String) : Option ℤ :=
  match trimChars s.toList with
  | '-' :: rest => (digitsToNat rest).map (fun n => -(n : ℤ))
  | '+' :: rest => (digitsToNat rest).map (fun n => (n : ℤ))
  | cs => (digitsToNat cs).map (fun n => (n : ℤ))

/-- The fractional-part interpretation used by `pyFloatOfString`. -/
def fracOfDigits (fp : List Char) : ℚ :=
  (natOfDigits fp : ℚ) / (10 : ℚ) ^ fp.length

/-- Model of Python `float(s)` on the decimal-literal fragment the
program can encounter (optional sign, digits, optional fractional
part; no exponent, no `inf`/`nan`, which never occur in this
program's data). A non-parsing string raises `ValueError`, modelled
as `none`; in particular `float('N/A')` is `none`. -/
def pyFloatOfString (s : String) : Option ℚ :=
  match trimChars s.toList with
  | '-' :: rest => (pyFloatMagnitude rest).map (fun q => -q)
  | '+' :: rest => pyFloatMagnitude rest
  | cs => pyFloatMagnitude cs
where
  /-- The unsigned part: `digits`, `digits.digits`, `digits.` or
  `.digits`, with at least one digit. -/
  pyFloatMagnitude (cs : List Char) : Option ℚ :=
    match cs.dropWhile Char.isDigit with
    | [] =>
        if (cs.takeWhile Char.isDigit).isEmpty then none
        else some (natOfDigits (cs.takeWhile Char.isDigit) : ℚ)
    | '.' :: fp =>
        if fp.all Char.isDigit &&
            !((cs.takeWhile Char.isDigit).isEmpty && fp.isEmpty) then
          some ((natOfDigits (cs.takeWhile Char.isDigit) : ℚ) + fracOfDigits fp)
        else none
    | _ => none

/-- Coercion of a `PyVal` to a number, as Python `float(v)` behaves on
the numbers and strings this program passes around. -/
def pyFloat : PyVal → Option ℚ
  | .num q => some q
  | .str s => pyFloatOfString s

/-- Round-half-to-even on rationals, the tie rule of Python `round`. -/
def roundHalfEven (x : ℚ) : ℤ :=
  let f : ℤ := ⌊x⌋
  let frac := x - (f : ℚ)
  if frac < 1 / 2 then f
  else if frac > 1 / 2 then f + 1
  else if f % 2 = 0 then f else f + 1

/-- Model of Python `round(x, n)` on the rational embedding of the
program's floats. -/
def pyRound (x : ℚ) (n : ℕ) : ℚ :=
  (roundHalfEven (x * 10 ^ n) : ℚ) / 10 ^ n

/-- Model of Python `int(x)` on a float: truncation toward zero. -/
def pyTrunc (q : ℚ) : ℤ :=
  if 0 ≤ q then ⌊q⌋ else ⌈q⌉

/-- Decimal rendering of a value that `round(x, 1)` produced, as
Python's `str` shows a one-decimal float (sign, integer part, one
fractional digit). -/
def fmtRound1 (q : ℚ) : String :=
  let z : ℤ := roundHalfEven (q * 10)
  let sgn := if z < 0 then "-" else ""
  let n := z.natAbs
  sgn ++ toString (n / 10) ++ "." ++ toString (n % 10)

/-- Split a character list on occurrences of one separator character,
keeping empty pieces — Python `str.split(sep)`. -/
def splitOnChar (sep : Char) : List Char → List (List Char)
  | [] => [[]]
  | c :: cs =>
    match splitOnChar sep cs with
    | [] => [[]]
    | g :: gs => if c = sep then [] :: g :: gs else (c :: g) :: gs

/-- Model of Python `str.split()` with no separator: split on runs of
whitespace, discarding empty pieces. -/
def pySplit (s : String) : List String :=
  ((splitOnChar ' ' (s.toList.map (fun c => if c.isWhitespace then ' ' else c))).filter
      (fun p => ¬p.isEmpty)).map String.mk

/-- Model of Python `str.lower()` on the ASCII names this program
handles. -/
def pyLower (s : String) : String :=
  String.mk (s.toList.map Char.toLower)

/-- Model of Python string slicing `s[:n]`. -/
def strTake (s : String) (n : ℕ) : String :=
  String.mk (s.toList.take n)

/-- `app.py` line 40: the fixed coarse-position table of
`get_precise_positions`. -/
def position_map : List (String × List String) :=
  [("Guard", ["PG", "SG"]), ("Forward", ["SF", "PF"]), ("Center", ["C"]),
   ("G-F", ["PG", "SG", "SF"]), ("F-G", ["SG", "SF", "PF"]), ("F-C", ["SF", "PF", "C"]),
   ("C-F", ["PF", "C", "SF"]), ("G", ["PG", "SG"]), ("F", ["SF", "PF"]), ("C", ["C"])]

/-- `app.py` lines 38-48: map a coarse position to the comma-joined
specific positions; an input outside the table (where `dict.get`
yields `None`, hence falsy) passes through unchanged. An empty list
would also be falsy, mirrored by the `isEmpty` test. -/
def get_precise_positions (generic_position : String) : String :=
  match position_map.lookup generic_position with
  | some positions =>
      if positions.isEmpty then generic_position
      else String.intercalate ", " positions
  | none => generic_position

/-- Result record of `analyze_style`. -/
structure StyleResult where
  core_style : String
  simple_rating : String
deriving DecidableEq, Repr

/-- The three stat entries `analyze_style` reads from the stats dict;
`none` models an absent key, for which `dict.get` supplies the
default `0`. -/
structure StatsIn where
  pts : Option PyVal
  ast : Option PyVal
  reb : Option PyVal
deriving DecidableEq, Repr

/-- `stats.get(k, 0)`. -/
def statGet (v : Option PyVal) : PyVal :=
  v.getD (.num 0)

/-- `app.py` lines 59-78: the numeric branch chain of `analyze_style`
(thresholds HIGH_PTS = 25, HIGH_AST = 8, HIGH_REB = 10), first match
wins. -/
def styleOf (pts ast reb : ℚ) : StyleResult :=
  if 25 ≤ pts ∧ 6 ≤ ast ∧ 6 ≤ reb then
    ⟨"🌟 頂級全能巨星 (Elite All-Around Star)", "集得分、組織和籃板於一身的劃時代球員。"⟩
  else if 25 ≤ pts then
    ⟨"得分機器 (Volume Scorer)", "聯盟頂級的得分手，能夠在任何位置取分。"⟩
  else if 8 ≤ ast ∧ 15 ≤ pts then
    ⟨"🎯 組織大師 (Playmaking Maestro)", "以傳球優先的組織核心，同時具備可靠的得分能力。"⟩
  else if 10 ≤ reb ∧ pts < 15 then
    ⟨"🧱 籃板/防守支柱 (Rebounding/Defense Anchor)", "內線防守和籃板的專家，隊伍的堅實後盾。"⟩
  else
    ⟨"角色球員 (Role Player)", "一名可靠的輪換球員。"⟩

/-- `app.py` lines 50-78: `analyze_style`. The three `float(...)`
coercions sit in one `try`; a `ValueError` in any of them yields the
fixed insufficient-data record. The `position` argument is accepted
and never read. -/
def analyze_style (stats : StatsIn) (position : String) : StyleResult :=
  match pyFloat (statGet stats.pts), pyFloat (statGet stats.ast), pyFloat (statGet stats.reb) with
  | some pts, some ast, some reb => styleOf pts ast reb
  | _, _, _ => ⟨"數據不足", "請嘗試查詢有數據的賽季。"⟩

/-- `app.py` lines 253-256: the season-vs-career delta bucket chain of
`get_player_report`, factored out verbatim. -/
def classify_trend (delta_pts : ℚ) : String :=
  if delta_pts ≥ 3 then "🚀 上升期 (Career Ascending)"
  else if |delta_pts| < 1 then "📈 巔峰期穩定 (Stable Peak Performance)"
  else if delta_pts < -3 then "📉 下滑期 (Performance Decline)"
  else "📊 表現波動 (Fluctuating Performance)"

/-- `app.py` lines 232-235: the A/TO computation over the already
rounded per-game values; `report['ast'] / report['tov']` raises
`ZeroDivisionError` exactly when the per-game turnover value is zero,
and that exception is caught and replaced by the `'N/A'` sentinel. -/
def compute_ato (astPG tovPG : ℚ) : PyVal :=
  if tovPG = 0 then .str "N/A" else .num (pyRound (astPG / tovPG) 2)

/-- `app.py` line 18. -/
def BBR_BASE_URL : String := "https://www.basketball-reference.com"

/-- `app.py` line 19: the fixed pre-request delay, in seconds. -/
def BBR_DELAY : ℚ := 4

/-- `app.py` lines 84-92: derive the Basketball-Reference slug from the
lowercased, whitespace-split name: last token truncated to 5
characters, first token truncated to 2, then `"01"`; fewer than two
tokens yield `None`. -/
def get_bbr_player_slug (player_name : String) : Option String :=
  match pySplit (pyLower player_name) with
  | first :: second :: rest =>
      some (strTake ((second :: rest).getLastD second) 5 ++ strTake first 2 ++ "01")
  | _ => none

/-- `app.py` line 106: the profile URL built from the slug (first
character of the slug, then the slug). -/
def bbrUrl (player_slug : String) : String :=
  BBR_BASE_URL ++ "/players/" ++ strTake player_slug 1 ++ "/" ++ player_slug ++ ".html"

/-- `app.py` line 103: `season.split('-')[-1]`, the string handed to
`int(...)`. -/
def seasonLastField (season : String) : String :=
  String.mk ((splitOnChar '-' season.toList).getLastD [])

/-- One row of the advanced table as the scraper reads it: the season
key and the `PER` / `VORP` cells; `none` models a cell on which
`pd.notna` is false. -/
structure AdvRow where
  season : String
  per : Option ℚ
  vorp : Option ℚ
deriving DecidableEq, Repr

/-- The advanced table `pd.read_html` may produce: whether a `PER`
column is present, and its rows. -/
structure AdvTable where
  hasPERColumn : Bool
  rows : List AdvRow
deriving DecidableEq, Repr

/-- Outcome of parsing a 200 response body (BeautifulSoup plus
`pd.read_html`, external libraries treated as an oracle): either an
exception inside the `try` block, named by its class, or a parsed
result with the advanced table when one was found in the commented
markup. -/
inductive ParseOutcome where
  | raise (excName : String)
  | parsed (table : Option AdvTable)
deriving DecidableEq, Repr

/-- Outcome of `requests.get` on a URL: either an exception, named by
its class, or a response with a status code whose body parses as
described by the `ParseOutcome`. -/
inductive FetchOutcome where
  | raise (excName : String)
  | response (statusCode : ℤ) (parse : ParseOutcome)
deriving DecidableEq, Repr

/-- The fixed-shape record `get_bbr_advanced_data` returns. -/
structure BbrRecord where
  PER : PyVal
  VORP : PyVal
  ScrapeStatus : String
deriving DecidableEq, Repr

/-- A Python exception escaping a function boundary, named by its
class. -/
structure PyError where
  className : String
deriving DecidableEq, Repr

/-- An observable side effect of the fetcher: the fixed delay or an
HTTP GET. -/
inductive Effect where
  | sleep (seconds : ℚ)
  | httpGet (url : String)
deriving DecidableEq, Repr

/-- The record returned when no advanced table (or no row for the
requested season) is found. -/
def bbrNoTable : BbrRecord :=
  ⟨.str "N/A", .str "N/A", "未找到 Advanced 表格"⟩

/-- The record returned when an exception was caught inside the
fetcher's `try` block. -/
def bbrExc (excName : String) : BbrRecord :=
  ⟨.str "N/A", .str "N/A", "爬蟲發生錯誤: " ++ excName⟩

/-- A `PER`/`VORP` cell as the success branch renders it:
`round(float(v), 1)` when `pd.notna(v)`, else `'N/A'`. -/
def bbrCell (v : Option ℚ) : PyVal :=
  match v with
  | some q => .num (pyRound q 1)
  | none => .str "N/A"

/-- The effect trace of one scrape attempt: the fixed delay (line 110),
then the GET (line 113). -/
def bbrEffects (player_slug : String) : List Effect :=
  [Effect.sleep BBR_DELAY, Effect.httpGet (bbrUrl player_slug)]

/-- `app.py` lines 110-152: the delay, the GET and the `try`/`except`
of `get_bbr_advanced_data`. Every exception the GET or the parse
raises is converted by the `except` clause into a status record
naming its class, so this part always produces a record, whatever the
network oracle answers. -/
def bbrFetchParse (env : String → FetchOutcome) (player_slug season : String) :
    List Effect × BbrRecord :=
  (bbrEffects player_slug,
    match env (bbrUrl player_slug) with
    | .raise excName => bbrExc excName
    | .response statusCode parse =>
      if statusCode ≠ 200 then
        ⟨.str "N/A", .str "N/A", "爬蟲失敗 (Code: " ++ toString statusCode ++ ")"⟩
      else
        match parse with
        | .raise excName => bbrExc excName
        | .parsed none => bbrNoTable
        | .parsed (some t) =>
          if t.hasPERColumn then
            match t.rows.filter (fun r => r.season == season) with
            | [] => bbrNoTable
            | r :: _ => ⟨bbrCell r.per, bbrCell r.vorp, "成功"⟩
          else bbrNoTable)

/-- `app.py` lines 95-152: `get_bbr_advanced_data`, over a network
oracle `env` mapping each URL to its fetch outcome. Returns the
effect trace together with the result; `Except.error` models an
exception escaping the function. Control flow from the source: a
missing slug returns early; then `end_year = str(int(season.split('-')[-1]))`
runs OUTSIDE the `try` block (line 103; `end_year` is never used
afterwards), so a season whose last `'-'`-separated field is not an
integer literal raises `ValueError` past the boundary; only then do
the delay, the GET and the guarded parse run. -/
def get_bbr_advanced_data (env : String → FetchOutcome) (player_name season : String) :
    List Effect × Except PyError BbrRecord :=
  match get_bbr_player_slug player_name with
  | none => ([], .ok ⟨.str "N/A", .str "N/A", "無法生成 Slug"⟩)
  | some player_slug =>
    match pyIntOfString (seasonLastField season) with
    | none => ([], .error ⟨"ValueError"⟩)
    | some _end_year =>
      ((bbrFetchParse env player_slug season).1,
       .ok (bbrFetchParse env player_slug season).2)

/-- Row 0 of the `CommonPlayerInfo` data frame (the API returns exactly
one row for a known id). -/
structure InfoRow where
  position : String
  displayFirstLast : String
  teamAbbreviation : String
  teamName : String
deriving DecidableEq, Repr

/-- One row of the season-by-season `PlayerCareerStats` frame: the
season key, team abbreviation, games played and season totals used by
the report. -/
structure SeasonRow where
  seasonId : String
  teamAbbreviation : String
  gp : ℚ
  pts : ℚ
  reb : ℚ
  ast : ℚ
  stl : ℚ
  blk : ℚ
  tov : ℚ
  fgPct : ℚ
  ftPct : ℚ
  fta : ℚ
  minutes : ℚ
deriving DecidableEq, Repr

/-- Row 0 of the career-totals frame. -/
structure CareerRow where
  gp : ℚ
  pts : ℚ
  reb : ℚ
  ast : ℚ
deriving DecidableEq, Repr

/-- One row of the awards frame. -/
structure AwardRow where
  description : String
  season : String
deriving DecidableEq, Repr

/-- The data frames the three NBA-API endpoint calls deliver when none
of them raises. -/
structure ApiSuccess where
  infoRow : InfoRow
  seasonRows : List SeasonRow
  careerRows : List CareerRow
  awardRows : List AwardRow
deriving DecidableEq, Repr

/-- Outcome of the NBA-API call block at the top of the `try` in
`get_player_report`: either some call raises (with the exception's
message) or all frames arrive. -/
inductive ApiOutcome where
  | raise (excMsg : String)
  | ok (d : ApiSuccess)
deriving DecidableEq, Repr

/-- The `trend_analysis` sub-dictionary: the status label and the
formatted delta strings (always strings in the source). -/
structure TrendAnalysis where
  trend_status : String
  delta_pts : String
  delta_reb : String
  delta_ast : String
deriving DecidableEq, Repr

/-- The flat report dictionary `get_player_report` returns.
`position := none` models the `'position'` key being absent, as it is
in the two error dictionaries. -/
structure Report where
  error : Option String
  name : String
  team_abbr : String
  team_full : String
  position : Option String
  precise_positions : String
  games_played : ℤ
  pts : PyVal
  reb : PyVal
  ast : PyVal
  stl : PyVal
  blk : PyVal
  tov : PyVal
  ato_ratio : PyVal
  fg_pct : PyVal
  ft_pct : PyVal
  fta_per_game : PyVal
  min_per_game : PyVal
  trend_analysis : TrendAnalysis
  awards : List String
  contract_year : String
  salary : String
  season : String
  bbr_per : PyVal
  bbr_vorp : PyVal
  bbr_status : String
deriving DecidableEq, Repr

/-- The external world `get_player_report` talks to: the id lookup
(`get_player_id` catches internally and returns `None` on any
failure, hence a plain `Option`), the network oracle for the scraper,
and the NBA-API oracle keyed by player id. -/
structure Env where
  getPlayerId : String → Option ℤ
  fetch : String → FetchOutcome
  api : ℤ → ApiOutcome

/-- Python truthiness of the looked-up id at `if not player_id:`
(line 165): `None` and `0` are falsy. -/
def pyFalsyId : Option ℤ → Bool
  | none => true
  | some i => i == 0

/-- The `'N/A'` trend sub-dictionary used by both error dictionaries
and the no-season-data branch. -/
def trendNA : TrendAnalysis :=
  ⟨"N/A", "N/A", "N/A", "N/A"⟩

/-- `app.py` lines 166-176: the error dictionary returned when the
name does not resolve; note its `bbr_*` entries copy the record the
already-performed enrichment fetch produced. -/
def unresolvedReport (player_name season : String) (bbr_info : BbrRecord) : Report where
  error := some ("找不到球員：" ++ player_name ++ "。請檢查姓名是否正確。")
  name := player_name
  team_abbr := "N/A"
  team_full := "N/A"
  position := none
  precise_positions := "N/A"
  games_played := 0
  pts := .str "N/A"
  reb := .str "N/A"
  ast := .str "N/A"
  stl := .str "N/A"
  blk := .str "N/A"
  tov := .str "N/A"
  ato_ratio := .str "N/A"
  fg_pct := .str "N/A"
  ft_pct := .str "N/A"
  fta_per_game := .str "N/A"
  min_per_game := .str "N/A"
  trend_analysis := trendNA
  awards := []
  contract_year := "N/A"
  salary := "N/A"
  season := season
  bbr_per := bbr_info.PER
  bbr_vorp := bbr_info.VORP
  bbr_status := bbr_info.ScrapeStatus

/-- `app.py` lines 294-304: the error dictionary of the top-level
`except` branch; its `bbr_*` entries are the FIXED sentinels
`'N/A'` / `'N/A'` / `'NBA API 失敗導致跳過 BBR 爬蟲'`, not the record
the enrichment fetch produced. -/
def exceptReport (player_name season excMsg : String) : Report where
  error := some ("數據處理失敗，詳細錯誤: " ++ excMsg)
  name := player_name
  team_abbr := "ERR"
  team_full := "API Error"
  position := none
  precise_positions := "N/A"
  games_played := 0
  pts := .str "N/A"
  reb := .str "N/A"
  ast := .str "N/A"
  stl := .str "N/A"
  blk := .str "N/A"
  tov := .str "N/A"
  ato_ratio := .str "N/A"
  fg_pct := .str "N/A"
  ft_pct := .str "N/A"
  fta_per_game := .str "N/A"
  min_per_game := .str "N/A"
  trend_analysis := trendNA
  awards := []
  contract_year := "N/A"
  salary := "N/A"
  season := season
  bbr_per := .str "N/A"
  bbr_vorp := .str "N/A"
  bbr_status := "NBA API 失敗導致跳過 BBR 爬蟲"

/-- `app.py` lines 259-261: the signed delta string,
`('+' if d > 0 else '') + str(round(d, 1))`. -/
def fmtDelta (d : ℚ) : String :=
  (if d > 0 then "+" else "") ++ fmtRound1 (pyRound d 1)

/-- `app.py` lines 195-206: the team fields, from the season rows when
any match the requested season, else from the info row. -/
def teamFields (info_df : InfoRow) (season_stats : List SeasonRow) : String × String :=
  if ¬season_stats.isEmpty then
    let team_abbr_list := season_stats.map (fun r => r.teamAbbreviation)
    if team_abbr_list.contains "TOT" then
      let abbrs := team_abbr_list.filter (fun a => a ≠ "TOT")
      let joined := String.intercalate ", " abbrs
      (joined, "效力多隊: " ++ joined)
    else
      (team_abbr_list.headD "", team_abbr_list.headD "")
  else
    (info_df.teamAbbreviation, info_df.teamName)

/-- `app.py` lines 285-289: the awards list,
`f"{DESCRIPTION} ({SEASON[:4]})"` per row. -/
def awardsList (awardRows : List AwardRow) : List String :=
  if awardRows.isEmpty then []
  else awardRows.map (fun a => a.description ++ " (" ++ strTake a.season 4 ++ ")")

/-- `app.py` lines 238-265: the career-trend block, run only in the
stats branch. Dividing by a zero career games-played total raises
`ZeroDivisionError`, uncaught inside the `try`, modelled as
`Except.error`. -/
def careerTrend (careerRows : List CareerRow) (pts reb ast : ℚ) :
    Except String TrendAnalysis :=
  match careerRows.head? with
  | some c =>
      if c.gp = 0 then .error "division by zero"
      else
        let delta_pts := pts - pyRound (c.pts / c.gp) 1
        let delta_reb := reb - pyRound (c.reb / c.gp) 1
        let delta_ast := ast - pyRound (c.ast / c.gp) 1
        .ok ⟨classify_trend delta_pts, fmtDelta delta_pts, fmtDelta delta_reb, fmtDelta delta_ast⟩
  | none => .ok ⟨"無法計算生涯趨勢", "N/A", "N/A", "N/A"⟩

/-- `app.py` lines 178-291: the body of the `try` block of
`get_player_report`, given the API frames and the enrichment record;
`Except.error` models an exception reaching the top-level `except`. -/
def buildReport (d : ApiSuccess) (bbr_info : BbrRecord) (season : String) :
    Except String Report :=
  let info_df := d.infoRow
  let season_stats := d.seasonRows.filter (fun r => r.seasonId == season)
  let generic_pos := info_df.position
  let tf := teamFields info_df season_stats
  let statsRow : Option SeasonRow :=
    match season_stats.getLast? with
    | some r => if r.gp > 0 then some r else none
    | none => none
  match statsRow with
  | some avg_stats =>
      let total_gp := avg_stats.gp
      let pts := pyRound (avg_stats.pts / total_gp) 1
      let reb := pyRound (avg_stats.reb / total_gp) 1
      let ast := pyRound (avg_stats.ast / total_gp) 1
      let stl := pyRound (avg_stats.stl / total_gp) 1
      let blk := pyRound (avg_stats.blk / total_gp) 1
      let tov := pyRound (avg_stats.tov / total_gp) 1
      match careerTrend d.careerRows pts reb ast with
      | .error e => .error e
      | .ok trend =>
          .ok { error := none
                name := info_df.displayFirstLast
                team_abbr := tf.1
                team_full := tf.2
                position := some generic_pos
                precise_positions := get_precise_positions generic_pos
                games_played := pyTrunc total_gp
                pts := .num pts
                reb := .num reb
                ast := .num ast
                stl := .num stl
                blk := .num blk
                tov := .num tov
                ato_ratio := compute_ato ast tov
                fg_pct := .num (pyRound (avg_stats.fgPct * 100) 1)
                ft_pct := .num (pyRound (avg_stats.ftPct * 100) 1)
                fta_per_game := .num (pyRound (avg_stats.fta / total_gp) 1)
                min_per_game := .num (pyRound (avg_stats.minutes / total_gp) 1)
                trend_analysis := trend
                awards := awardsList d.awardRows
                contract_year := "數據源無法獲取"
                salary := "數據源無法獲取"
                season := season
                bbr_per := bbr_info.PER
                bbr_vorp := bbr_info.VORP
                bbr_status := bbr_info.ScrapeStatus }
  | none =>
      .ok { error := none
            name := info_df.displayFirstLast
            team_abbr := tf.1
            team_full := tf.2
            position := some generic_pos
            precise_positions := get_precise_positions generic_pos
            games_played := 0
            pts := .str "N/A"
            reb := .str "N/A"
            ast := .str "N/A"
            stl := .str "N/A"
            blk := .str "N/A"
            tov := .str "N/A"
            ato_ratio := .str "N/A"
            fg_pct := .str "N/A"
            ft_pct := .str "N/A"
            fta_per_game := .str "N/A"
            min_per_game := .str "N/A"
            trend_analysis := trendNA
            awards := awardsList d.awardRows
            contract_year := "N/A"
            salary := "N/A"
            season := "無 " ++ season ++ " 賽季數據"
            bbr_per := bbr_info.PER
            bbr_vorp := bbr_info.VORP
            bbr_status := bbr_info.ScrapeStatus }

/-- `app.py` lines 158-304: `get_player_report`. The id lookup and the
enrichment fetch both run first (lines 160-163, before the id is
tested); a falsy id returns the unresolved-error dictionary carrying
the fetched enrichment; otherwise the `try` body runs and any
exception in it becomes the fixed `except`-branch dictionary. An
exception escaping `get_bbr_advanced_data` (see its doc comment)
escapes `get_player_report` as well, since the fetch happens outside
the `try`. -/
def get_player_report (env : Env) (player_name : String) (season : String) :
    List Effect × Except PyError Report :=
  match (get_bbr_advanced_data env.fetch player_name season).2 with
  | .error e => ((get_bbr_advanced_data env.fetch player_name season).1, .error e)
  | .ok bbr_info =>
    if pyFalsyId (env.getPlayerId player_name) then
      ((get_bbr_advanced_data env.fetch player_name season).1,
       .ok (unresolvedReport player_name season bbr_info))
    else
      match env.api ((env.getPlayerId player_name).getD 0) with
      | .raise excMsg =>
          ((get_bbr_advanced_data env.fetch player_name season).1,
           .ok (exceptReport player_name season excMsg))
      | .ok d =>
        match buildReport d bbr_info season with
        | .ok rep => ((get_bbr_advanced_data env.fetch player_name season).1, .ok rep)
        | .error excMsg =>
            ((get_bbr_advanced_data env.fetch player_name season).1,
             .ok (exceptReport player_name season excMsg))

/-! Bucket and branch predicates named by the testable properties, and
the concrete environments used by the counterexamples and witnesses. -/

/-- Trend bucket 1: `delta ≥ +3.0`. -/
def trendAscending (d : ℚ) : Prop := d ≥ 3

/-- Trend bucket 2: `|delta| < 1.0`. -/
def trendStablePeak (d : ℚ) : Prop := |d| < 1

/-- Trend bucket 3: `delta < −3.0`. -/
def trendDeclining (d : ℚ) : Prop := d < -3

/-- Trend bucket 4: the `else` of the chain. -/
def trendFluctuating (d : ℚ) : Prop :=
  ¬trendAscending d ∧ ¬trendStablePeak d ∧ ¬trendDeclining d

/-- Style guard 1: `pts ≥ 25 and ast ≥ 6 and reb ≥ 6`. -/
def styleG1 (pts ast reb : ℚ) : Prop := 25 ≤ pts ∧ 6 ≤ ast ∧ 6 ≤ reb

/-- Style guard 2: `pts ≥ 25`. -/
def styleG2 (pts : ℚ) : Prop := 25 ≤ pts

/-- Style guard 3: `ast ≥ 8 and pts ≥ 15`. -/
def styleG3 (pts ast : ℚ) : Prop := 8 ≤ ast ∧ 15 ≤ pts

/-- Style guard 4: `reb ≥ 10 and pts < 15`. -/
def styleG4 (pts reb : ℚ) : Prop := 10 ≤ reb ∧ pts < 15

/-- Branch 1 fires: its guard holds. -/
def styleFires1 (pts ast reb : ℚ) : Prop := styleG1 pts ast reb

/-- Branch 2 fires: guard 2 holds and no earlier guard does. -/
def styleFires2 (pts ast reb : ℚ) : Prop := ¬styleG1 pts ast reb ∧ styleG2 pts

/-- Branch 3 fires: guard 3 holds and no earlier guard does. -/
def styleFires3 (pts ast reb : ℚ) : Prop :=
  ¬styleG1 pts ast reb ∧ ¬styleG2 pts ∧ styleG3 pts ast

/-- Branch 4 fires: guard 4 holds and no earlier guard does. -/
def styleFires4 (pts ast reb : ℚ) : Prop :=
  ¬styleG1 pts ast reb ∧ ¬styleG2 pts ∧ ¬styleG3 pts ast ∧ styleG4 pts reb

/-- Branch 5 (the default) fires: no guard holds. -/
def styleFires5 (pts ast reb : ℚ) : Prop :=
  ¬styleG1 pts ast reb ∧ ¬styleG2 pts ∧ ¬styleG3 pts ast ∧ ¬styleG4 pts reb

/-- Branch 1 result. -/
def styleElite : StyleResult :=
  ⟨"🌟 頂級全能巨星 (Elite All-Around Star)", "集得分、組織和籃板於一身的劃時代球員。"⟩

/-- Branch 2 result. -/
def styleVolume : StyleResult :=
  ⟨"得分機器 (Volume Scorer)", "聯盟頂級的得分手，能夠在任何位置取分。"⟩

/-- Branch 3 result. -/
def styleMaestro : StyleResult :=
  ⟨"🎯 組織大師 (Playmaking Maestro)", "以傳球優先的組織核心，同時具備可靠的得分能力。"⟩

/-- Branch 4 result. -/
def styleAnchor : StyleResult :=
  ⟨"🧱 籃板/防守支柱 (Rebounding/Defense Anchor)", "內線防守和籃板的專家，隊伍的堅實後盾。"⟩

/-- Branch 5 result. -/
def styleRole : StyleResult :=
  ⟨"角色球員 (Role Player)", "一名可靠的輪換球員。"⟩

/-- The insufficient-data result. -/
def styleNoData : StyleResult :=
  ⟨"數據不足", "請嘗試查詢有數據的賽季。"⟩

/-- A network oracle whose every GET raises `ConnectionError`; on the
counterexample input it is never consulted. -/
def envRaiseC1 : String → FetchOutcome :=
  fun _ => FetchOutcome.raise "ConnectionError"

/-- Advanced table with one matching row whose VORP cell is NaN, for
the C7 environment. -/
def advTableC7 : AdvTable := ⟨true, [⟨"2023-24", some 25, none⟩]⟩

/-- The record the scraper extracts from `advTableC7`. -/
def bbrC7 : BbrRecord := ⟨bbrCell (some 25), bbrCell none, "成功"⟩

/-- Environment where no name resolves and the enrichment fetch
succeeds. -/
def envC7 : Env where
  getPlayerId := fun _ => none
  fetch := fun _ => FetchOutcome.response 200 (ParseOutcome.parsed (some advTableC7))
  api := fun _ => ApiOutcome.raise "unused"

/-- A network oracle answering a 200 response whose parse raises, for
the C10 witness. -/
def envParseRaiseC10 : String → FetchOutcome :=
  fun _ => FetchOutcome.response 200 (ParseOutcome.raise "XMLSyntaxError")

/-! The claims. -/

/-- C5: `get_precise_positions` is a pure total function: every coarse
position of the fixed table maps to its documented comma-separated
ordered specific-position list, and any string outside the table
passes through unchanged. -/
theorem precise_positions_table_and_passthrough (s : String)
    (h : position_map.lookup s = none) :
    get_precise_positions s = s ∧
    get_precise_positions "Guard" = "PG, SG" ∧
    get_precise_positions "Forward" = "SF, PF" ∧
    get_precise_positions "Center" = "C" ∧
    get_precise_positions "G-F" = "PG, SG, SF" ∧
    get_precise_positions "F-G" = "SG, SF, PF" ∧
    get_precise_positions "F-C" = "SF, PF, C" ∧
    get_precise_positions "C-F" = "PF, C, SF" ∧
    get_precise_positions "G" = "PG, SG" ∧
    get_precise_positions "F" = "SF, PF" ∧
    get_precise_positions "C" = "C" := by
  refine ⟨?_, rfl, rfl, rfl, rfl, rfl, rfl, rfl, rfl, rfl, rfl⟩
  unfold get_precise_positions
  rw [h]

/-- C5 witness: `"Point Guard"` is outside the table and passes
through unchanged. -/
theorem precise_positions_table_and_passthrough_witness :
    position_map.lookup "Point Guard" = none ∧
    get_precise_positions "Point Guard" = "Point Guard" :=
  ⟨rfl, (precise_positions_table_and_passthrough "Point Guard" rfl).1⟩

/-- C6: in the per-game stats computation the A/TO field produced by
`compute_ato` (the guarded `report['ast'] / report['tov']` of
`get_player_report`) is the `'N/A'` sentinel whenever the per-game
turnover value is zero; no division exception escapes, the function
is total. -/
theorem ato_ratio_zero_turnovers (astPG tovPG : ℚ) (h : tovPG = 0) :
    compute_ato astPG tovPG = PyVal.str "N/A" := by
  unfold compute_ato
  rw [if_pos h]

/-- C6 witness: `ast = 5`, `tov = 0` yields the sentinel. -/
theorem ato_ratio_zero_turnovers_witness :
    compute_ato 5 0 = PyVal.str "N/A" :=
  ato_ratio_zero_turnovers 5 0 rfl

/-- C8: when any of the three stat entries fails Python's `float`
coercion, `analyze_style` returns the fixed insufficient-data record
instead of raising. -/
theorem analyze_style_non_numeric (stats : StatsIn) (position : String)
    (h : pyFloat (statGet stats.pts) = none ∨ pyFloat (statGet stats.ast) = none ∨
      pyFloat (statGet stats.reb) = none) :
    analyze_style stats position = styleNoData := by
  unfold analyze_style styleNoData
  rcases hp : pyFloat (statGet stats.pts) with _ | p <;>
    rcases ha : pyFloat (statGet stats.ast) with _ | a <;>
      rcases hq : pyFloat (statGet stats.reb) with _ | r <;>
        simp_all

/-- C8 witness: a `'N/A'` points entry yields the insufficient-data
record. -/
theorem analyze_style_non_numeric_witness :
    analyze_style ⟨some (.str "N/A"), some (.num 10), some (.num 5)⟩ "Guard" = styleNoData :=
  analyze_style_non_numeric ⟨some (.str "N/A"), some (.num 10), some (.num 5)⟩ "Guard"
    (Or.inl rfl)

/-- C9: `analyze_style` never reads its position argument: its output
is identical for any two position values. -/
theorem analyze_style_position_invariant (stats : StatsIn) (p1 p2 : String) :
    analyze_style stats p1 = analyze_style stats p2 := rfl

/-- C10: a single-token player name yields no slug, and the fetcher
returns the fixed slug-failure record with an empty effect trace: no
delay is applied and no HTTP request is issued. -/
theorem single_token_slug_none_no_fetch (env : String → FetchOutcome) (name season : String)
    (h : (pySplit (pyLower name)).length = 1) :
    get_bbr_player_slug name = none ∧
    get_bbr_advanced_data env name season =
      ([], Except.ok ⟨PyVal.str "N/A", PyVal.str "N/A", "無法生成 Slug"⟩) := by
  obtain ⟨t, ht⟩ := List.length_eq_one.mp h
  have hslug : get_bbr_player_slug name = none := by
    unfold get_bbr_player_slug
    rw [ht]
  refine ⟨hslug, ?_⟩
  unfold get_bbr_advanced_data
  rw [hslug]

/-- C10 witness: `"LeBron"` is a single token; the fetcher returns the
slug-failure record without consulting the network oracle. -/
theorem single_token_slug_none_no_fetch_witness :
    (pySplit (pyLower "LeBron")).length = 1 ∧
    get_bbr_advanced_data envParseRaiseC10 "LeBron" "2023-24" =
      ([], Except.ok ⟨PyVal.str "N/A", PyVal.str "N/A", "無法生成 Slug"⟩) :=
  ⟨rfl, (single_token_slug_none_no_fetch envParseRaiseC10 "LeBron" "2023-24" rfl).2⟩

/-- C3: the four trend buckets, evaluated in order, are exhaustive and
pairwise non-overlapping over all delta values; `classify_trend`
returns each bucket's label on that bucket; and the four sample
deltas `+3.0`, `0.5`, `-3.5`, `+2.0` land as documented. -/
theorem trend_buckets_exhaustive_disjoint (d : ℚ) :
    (trendAscending d ∨ trendStablePeak d ∨ trendDeclining d ∨ trendFluctuating d) ∧
    ¬(trendAscending d ∧ trendStablePeak d) ∧
    ¬(trendAscending d ∧ trendDeclining d) ∧
    ¬(trendAscending d ∧ trendFluctuating d) ∧
    ¬(trendStablePeak d ∧ trendDeclining d) ∧
    ¬(trendStablePeak d ∧ trendFluctuating d) ∧
    ¬(trendDeclining d ∧ trendFluctuating d) ∧
    (trendAscending d → classify_trend d = "🚀 上升期 (Career Ascending)") ∧
    (trendStablePeak d → classify_trend d = "📈 巔峰期穩定 (Stable Peak Performance)") ∧
    (trendDeclining d → classify_trend d = "📉 下滑期 (Performance Decline)") ∧
    (trendFluctuating d → classify_trend d = "📊 表現波動 (Fluctuating Performance)") ∧
    classify_trend 3 = "🚀 上升期 (Career Ascending)" ∧
    classify_trend (1 / 2) = "📈 巔峰期穩定 (Stable Peak Performance)" ∧
    classify_trend (-7 / 2) = "📉 下滑期 (Performance Decline)" ∧
    classify_trend 2 = "📊 表現波動 (Fluctuating Performance)" := by
  unfold trendFluctuating trendAscending trendStablePeak trendDeclining
  refine ⟨?_, ?_, ?_, ?_, ?_, ?_, ?_, ?_, ?_, ?_, ?_, ?_, ?_, ?_, ?_⟩
  · by_cases h1 : d ≥ 3
    · exact Or.inl h1
    by_cases h2 : |d| < 1
    · exact Or.inr (Or.inl h2)
    by_cases h3 : d < -3
    · exact Or.inr (Or.inr (Or.inl h3))
    · exact Or.inr (Or.inr (Or.inr ⟨h1, h2, h3⟩))
  · rintro ⟨h1, h2⟩
    rcases abs_lt.mp h2 with ⟨_, hb⟩
    linarith
  · rintro ⟨h1, h3⟩
    linarith
  · rintro ⟨h1, hf⟩
    exact hf.1 h1
  · rintro ⟨h2, h3⟩
    rcases abs_lt.mp h2 with ⟨ha, _⟩
    linarith
  · rintro ⟨h2, hf⟩
    exact hf.2.1 h2
  · rintro ⟨h3, hf⟩
    exact hf.2.2 h3
  · intro h1
    unfold classify_trend
    rw [if_pos h1]
  · intro h2
    rcases abs_lt.mp h2 with ⟨ha, hb⟩
    unfold classify_trend
    rw [if_neg (by intro hc; linarith), if_pos h2]
  · intro h3
    unfold classify_trend
    rw [if_neg (by intro hc; linarith),
      if_neg (by intro hc; rcases abs_lt.mp hc with ⟨ha, _⟩; linarith), if_pos h3]
  · rintro ⟨h1, h2, h3⟩
    unfold classify_trend
    rw [if_neg h1, if_neg h2, if_neg h3]
  · unfold classify_trend
    rw [if_pos (by norm_num)]
  · unfold classify_trend
    rw [if_neg (by norm_num), if_pos (by rw [abs_lt]; constructor <;> norm_num)]
  · unfold classify_trend
    rw [if_neg (by norm_num),
      if_neg (by rw [abs_lt]; push_neg; intro hc; linarith), if_pos (by norm_num)]
  · unfold classify_trend
    rw [if_neg (by norm_num),
      if_neg (by rw [abs_lt]; push_neg; intro hc; norm_num),
      if_neg (by norm_num)]

/-- C3 witness: the theorem applied at delta `= 3`, with the Ascending
bucket's implication discharged there. -/
theorem trend_buckets_exhaustive_disjoint_witness :
    classify_trend 3 = "🚀 上升期 (Career Ascending)" :=
  (trend_buckets_exhaustive_disjoint 3).2.2.2.2.2.2.2.1 (le_refl 3)

/-- C4: for a numeric stats triple, `analyze_style` computes
`styleOf pts ast reb`; exactly one of the five branches fires, in
strict priority order; each firing branch forces its documented
result; and `(30, 0, 0)` lands on Volume Scorer, not Role Player. -/
theorem analyze_style_branch_priority (stats : StatsIn) (position : String) (pts ast reb : ℚ)
    (hp : pyFloat (statGet stats.pts) = some pts)
    (ha : pyFloat (statGet stats.ast) = some ast)
    (hr : pyFloat (statGet stats.reb) = some reb) :
    analyze_style stats position = styleOf pts ast reb ∧
    (styleFires1 pts ast reb ∨ styleFires2 pts ast reb ∨ styleFires3 pts ast reb ∨
      styleFires4 pts ast reb ∨ styleFires5 pts ast reb) ∧
    ¬(styleFires1 pts ast reb ∧ styleFires2 pts ast reb) ∧
    ¬(styleFires1 pts ast reb ∧ styleFires3 pts ast reb) ∧
    ¬(styleFires1 pts ast reb ∧ styleFires4 pts ast reb) ∧
    ¬(styleFires1 pts ast reb ∧ styleFires5 pts ast reb) ∧
    ¬(styleFires2 pts ast reb ∧ styleFires3 pts ast reb) ∧
    ¬(styleFires2 pts ast reb ∧ styleFires4 pts ast reb) ∧
    ¬(styleFires2 pts ast reb ∧ styleFires5 pts ast reb) ∧
    ¬(styleFires3 pts ast reb ∧ styleFires4 pts ast reb) ∧
    ¬(styleFires3 pts ast reb ∧ styleFires5 pts ast reb) ∧
    ¬(styleFires4 pts ast reb ∧ styleFires5 pts ast reb) ∧
    (styleFires1 pts ast reb → styleOf pts ast reb = styleElite) ∧
    (styleFires2 pts ast reb → styleOf pts ast reb = styleVolume) ∧
    (styleFires3 pts ast reb → styleOf pts ast reb = styleMaestro) ∧
    (styleFires4 pts ast reb → styleOf pts ast reb = styleAnchor) ∧
    (styleFires5 pts ast reb → styleOf pts ast reb = styleRole) ∧
    styleOf 30 0 0 = styleVolume ∧
    styleVolume ≠ styleRole := by
  refine ⟨?_, ?_, fun h => h.2.1 h.1, fun h => h.2.1 h.1, fun h => h.2.1 h.1,
    fun h => h.2.1 h.1, fun h => h.2.2.1 h.1.2, fun h => h.2.2.1 h.1.2,
    fun h => h.2.2.1 h.1.2, fun h => h.2.2.2.1 h.1.2.2, fun h => h.2.2.2.1 h.1.2.2,
    fun h => h.2.2.2.2 h.1.2.2.2, ?_, ?_, ?_, ?_, ?_, rfl, by decide⟩
  · unfold analyze_style
    rw [hp, ha, hr]
  · by_cases h1 : styleG1 pts ast reb
    · exact Or.inl h1
    by_cases h2 : styleG2 pts
    · exact Or.inr (Or.inl ⟨h1, h2⟩)
    by_cases h3 : styleG3 pts ast
    · exact Or.inr (Or.inr (Or.inl ⟨h1, h2, h3⟩))
    by_cases h4 : styleG4 pts reb
    · exact Or.inr (Or.inr (Or.inr (Or.inl ⟨h1, h2, h3, h4⟩)))
    · exact Or.inr (Or.inr (Or.inr (Or.inr ⟨h1, h2, h3, h4⟩)))
  · intro h1
    unfold styleFires1 styleG1 at h1
    unfold styleOf styleElite
    rw [if_pos h1]
  · rintro ⟨h1, h2⟩
    unfold styleG1 at h1
    unfold styleG2 at h2
    unfold styleOf styleVolume
    rw [if_neg h1, if_pos h2]
  · rintro ⟨h1, h2, h3⟩
    unfold styleG1 at h1
    unfold styleG2 at h2
    unfold styleG3 at h3
    unfold styleOf styleMaestro
    rw [if_neg h1, if_neg h2, if_pos h3]
  · rintro ⟨h1, h2, h3, h4⟩
    unfold styleG1 at h1
    unfold styleG2 at h2
    unfold styleG3 at h3
    unfold styleG4 at h4
    unfold styleOf styleAnchor
    rw [if_neg h1, if_neg h2, if_neg h3, if_pos h4]
  · rintro ⟨h1, h2, h3, h4⟩
    unfold styleG1 at h1
    unfold styleG2 at h2
    unfold styleG3 at h3
    unfold styleG4 at h4
    unfold styleOf styleRole
    rw [if_neg h1, if_neg h2, if_neg h3, if_neg h4]

/-- C4 witness: the stats dict `(pts, ast, reb) = (30, 0, 0)` yields
Volume Scorer. -/
theorem analyze_style_branch_priority_witness :
    analyze_style ⟨some (.num 30), some (.num 0), some (.num 0)⟩ "G" = styleVolume := by
  have h := analyze_style_branch_priority ⟨some (.num 30), some (.num 0), some (.num 0)⟩
    "G" 30 0 0 rfl rfl rfl
  rw [h.1]
  exact rfl

/-- C1 counterexample: with a two-token name (slug is generated) and a
season whose last `'-'`-separated field is not an integer literal,
`get_bbr_advanced_data` raises `ValueError` past its boundary — line
103 of `app.py` runs outside the `try` — instead of returning the
fixed-shape record; no delay and no GET happen first. -/
theorem bbr_season_valueerror_escapes :
    get_bbr_advanced_data envRaiseC1 "Jayson Tatum" "abc" =
      ([], Except.error ⟨"ValueError"⟩) := rfl

/-- C1 amended: provided the season's last `'-'`-separated field
parses as an integer (so line 103 does not raise), the fetcher always
returns a fixed-shape record, and an exception raised by the GET, or
by the parse of a 200 response, is converted into the status sentinel
naming the exception class with both data fields `'N/A'`. -/
theorem bbr_boundary_amended (env : String → FetchOutcome) (name season : String)
    (hsea : (pyIntOfString (seasonLastField season)).isSome = true) :
    (∃ rec : BbrRecord, (get_bbr_advanced_data env name season).2 = Except.ok rec) ∧
    (∀ sl excName, get_bbr_player_slug name = some sl →
      env (bbrUrl sl) = FetchOutcome.raise excName →
      (get_bbr_advanced_data env name season).2 = Except.ok (bbrExc excName)) ∧
    (∀ sl excName, get_bbr_player_slug name = some sl →
      env (bbrUrl sl) = FetchOutcome.response 200 (ParseOutcome.raise excName) →
      (get_bbr_advanced_data env name season).2 = Except.ok (bbrExc excName)) := by
  obtain ⟨k, hk⟩ := Option.isSome_iff_exists.mp hsea
  refine ⟨?_, ?_, ?_⟩
  · rcases hslug : get_bbr_player_slug name with _ | sl
    · exact ⟨⟨.str "N/A", .str "N/A", "無法生成 Slug"⟩,
        by unfold get_bbr_advanced_data; rw [hslug]⟩
    · exact ⟨(bbrFetchParse env sl season).2,
        by unfold get_bbr_advanced_data; rw [hslug, hk]⟩
  · intro sl excName hslug henv
    have h2 : (bbrFetchParse env sl season).2 = bbrExc excName := by
      unfold bbrFetchParse
      rw [henv]
    unfold get_bbr_advanced_data
    rw [hslug, hk]
    show Except.ok (bbrFetchParse env sl season).2 = _
    rw [h2]
  · intro sl excName hslug henv
    have h2 : (bbrFetchParse env sl season).2 = bbrExc excName := by
      unfold bbrFetchParse
      rw [henv]
      rfl
    unfold get_bbr_advanced_data
    rw [hslug, hk]
    show Except.ok (bbrFetchParse env sl season).2 = _
    rw [h2]

/-- C1 witness: for `"Jayson Tatum"` and the well-formed season
`"2023-24"`, a GET that raises `ConnectionError` yields the exception
sentinel record. -/
theorem bbr_boundary_amended_witness :
    (pyIntOfString (seasonLastField "2023-24")).isSome = true ∧
    (get_bbr_advanced_data envRaiseC1 "Jayson Tatum" "2023-24").2 =
      Except.ok (bbrExc "ConnectionError") :=
  ⟨rfl, (bbr_boundary_amended envRaiseC1 "Jayson Tatum" "2023-24" rfl).2.1
    "tatumja01" "ConnectionError" rfl rfl⟩

/-- C7 counterexample: an unresolvable two-token name together with a
malformed season makes `get_player_report` propagate the fetcher's
`ValueError` instead of returning an error Report at all, so the
claim's universal statement fails. -/
theorem unresolved_with_bad_season_raises :
    envC7.getPlayerId "Zzz Zzz" = none ∧
    (get_player_report envC7 "Zzz Zzz" "abc").2 = Except.error ⟨"ValueError"⟩ :=
  ⟨rfl, rfl⟩

/-- C7 amended: for every player name that does not resolve to an id,
provided the enrichment fetch itself returns a record (it raises
`ValueError` instead when a slug is generated and the season's last
`'-'`-separated field is not an integer literal), `get_player_report`
returns an error Report whose enrichment fields equal exactly the
fetched record; its effect trace is exactly the fetch's, the fetch
having run despite the failed resolution. -/
theorem unresolved_report_carries_enrichment (env : Env) (name season : String)
    (bbr : BbrRecord)
    (hid : env.getPlayerId name = none)
    (hbbr : (get_bbr_advanced_data env.fetch name season).2 = Except.ok bbr) :
    (get_player_report env name season).2 =
      Except.ok (unresolvedReport name season bbr) ∧
    ((unresolvedReport name season bbr).error).isSome = true ∧
    (unresolvedReport name season bbr).bbr_per = bbr.PER ∧
    (unresolvedReport name season bbr).bbr_vorp = bbr.VORP ∧
    (unresolvedReport name season bbr).bbr_status = bbr.ScrapeStatus ∧
    (get_player_report env name season).1 =
      (get_bbr_advanced_data env.fetch name season).1 := by
  refine ⟨?_, rfl, rfl, rfl, rfl, ?_⟩
  · unfold get_player_report
    rw [hbbr, hid]
    rfl
  · unfold get_player_report
    rw [hbbr, hid]
    rfl

/-- C7 witness: the amended theorem applied to a concrete environment
where no name resolves and the fetch extracts PER 25.0. -/
theorem unresolved_report_carries_enrichment_witness :
    (get_player_report envC7 "Test Player" "2023-24").2 =
      Except.ok (unresolvedReport "Test Player" "2023-24" bbrC7) :=
  (unresolved_report_carries_enrichment envC7 "Test Player" "2023-24" bbrC7 rfl rfl).1

end NbaApp
